import Mathlib

/-!
Verification development for the marvis network-troubleshooting module.

The definitions below are a shallow embedding of `src/marvis/pyats_handler.py`
(the device command executor) and `src/marvis/manager.py` (the orchestration
flows), together with the data records of `src/marvis/data_models.py`.
External effects (pyATS device sessions, ping/DNS probes, LLM calls) are
modelled as explicit behaviour parameters; the control flow, branch conditions
and constructed values follow the Python source line by line.
-/

namespace Marvis

/-- Split a character list at whitespace; runs of whitespace produce empty
tokens, removed by the caller's filter (mirrors Python `str.split()` which
drops them). -/
def splitWsFold (cs : List Char) : List (List Char) :=
  cs.foldr
    (fun c acc =>
      if c.isWhitespace then [] :: acc
      else
        match acc with
        | [] => [[c]]
        | t :: ts => (c :: t) :: ts)
    []

/-- Python `" ".join(tokens)`. -/
def joinWithSpace : List String → String
  | [] => ""
  | [t] => t
  | t :: ts => t ++ " " ++ joinWithSpace ts

/-- Python `" ".join(s.strip().split())` as used in `PyATSHandler.__init__`
(line 51) and `execute_command_on_devices` (line 195): split on whitespace
runs, drop empties, re-join with single spaces. -/
def normalizeCommand (s : String) : String :=
  joinWithSpace (((splitWsFold s.toList).filter (fun t => t ≠ [])).map
    (fun t => String.mk t))

/-- The characters of `s` before the first `:` — Python `s.split(':')[0]`. -/
def beforeColon : List Char → List Char
  | [] => []
  | c :: cs => if c = ':' then [] else c :: beforeColon cs

/-- Python `s[:n]` on a string. -/
def pyTake (s : String) (n : Nat) : String := String.mk (s.toList.take n)

/-- Python truthiness of an `Optional[str]`: `None` and `""` are falsy. -/
def pyStrTruthy : Option String → Bool
  | none => false
  | some s => s ≠ ""

/-- Python `o or d` for an `Optional[str]` value `o`. -/
def pyStrOrDefault (o : Option String) (d : String) : String :=
  match o with
  | none => d
  | some s => if s = "" then d else s

/-- Python `f"{b}"` for a bool: `"True"` / `"False"`. -/
def pyBoolRepr (b : Bool) : String := if b then "True" else "False"

/-- Line 372 of `pyats_handler.py`:
`all(c.isdigit() or c == '.' for c in target_for_ping.split(':')[0])`. -/
def isIpLike (target : String) : Bool :=
  (beforeColon target.toList).all (fun c => c.isDigit || c = '.')

/-- Models Python `list(set(xs))` for strings.  CPython's set iteration order
is arbitrary (hash based); we fix one realizable order via `List.dedup`.
Crucially, faithful to the code, no sorting is applied. -/
def pySetToList (xs : List String) : List String := xs.dedup

/-- Lexicographic code-point comparison of char lists, the order Python uses
to sort strings. -/
def charListLe : List Char → List Char → Bool
  | [], _ => true
  | _ :: _, [] => false
  | a :: as, b :: bs =>
    if a.toNat < b.toNat then true
    else if b.toNat < a.toNat then false
    else charListLe as bs

/-- Python `a <= b` on strings. -/
def pyStrLe (a b : String) : Bool := charListLe a.toList b.toList

/-- Insert into a `pyStrLe`-sorted list, keeping it sorted. -/
def insertSorted (x : String) : List String → List String
  | [] => [x]
  | y :: ys => if pyStrLe x y then x :: y :: ys else y :: insertSorted x ys

/-- Models Python `sorted(xs)` on strings (lexicographic by code point). -/
def pySorted : List String → List String
  | [] => []
  | x :: xs => insertSorted x (pySorted xs)

/-- `ConnectivityTestResult.test_type` (`data_models.py` line 75):
`Literal["ping", "dns_resolution"]`. -/
inductive TestType where
  | ping
  | dns_resolution
deriving DecidableEq, Repr

/-- `ConnectivityTestResult` (`data_models.py` lines 73-78).  The free-form
`details` dict (ping latency, resolved IPs) is not modelled: no claim
mentions its contents. -/
structure ConnectivityTestResult where
  test_type : TestType
  target : String
  success : Bool
deriving DecidableEq, Repr

/-- `PyATSCommandResult` (`data_models.py` lines 65-71).  `parsed_output` is
`Union[Dict, List, str]` in the source; it is treated as an opaque string
since no claim inspects its structure. -/
structure PyATSCommandResult where
  device_hostname : String
  command : String
  raw_output : Option String := none
  parsed_output : Option String := none
  error : Option String := none
deriving DecidableEq, Repr

/-- Outcome of the `device_obj.parse(cmd, raw_data=True)` call inside
`execute_command_on_devices` (lines 240-327): either a parsed value (with the
optional embedded `raw_output[0]["output"]` text), or one of the four
exception classes the source catches. -/
inductive ParseOutcome where
  | parsedOk (parsed : String) (rawFromParse : Option String)
  | schemaEmpty (msg : String)
  | attrError (msg : String)
  | genieError (msg : String) (output : Option String)
  | genericError (msg : String)
deriving DecidableEq, Repr

deriving instance DecidableEq for Except

/-- Behaviour of one testbed device entry and its session provider: the data
`execute_command_on_devices` can observe about a device.  `connIp` is the
`connections["default"]/["a"]` ip when retrievable (line 359-361); `none`
covers both absence and the swallowed exception at line 362.  A failure of
the raw-output fallback `device_obj.execute` (line 262) inside the main try
is caught by the generic handler; `executeOutcome` models the call's result
wherever it occurs. -/
structure DeviceBehavior where
  os : String
  dtype : String
  connIp : Option String
  alreadyConnected : Bool
  connectOutcome : Except String Unit
  parseOutcome : ParseOutcome
  executeOutcome : Except String String
  pingSuccess : Bool
  dnsSuccess : Bool
deriving DecidableEq, Repr

/-- The state of a constructed `PyATSHandler` (`pyats_handler.py` lines
33-71): whether a testbed loaded, the normalized allow-set, and the
connectivity-diagnostics feature switch. -/
structure PyATSHandlerConfig where
  testbedLoaded : Bool
  allowed_commands_set : List String
  enable_connectivity_tests : Bool

/-- `__init__` lines 50-54: each allowed command is whitespace-normalized
before entering the allow-set. -/
def mkAllowedCommandsSet (allowed_commands : List String) : List String :=
  allowed_commands.map normalizeCommand

/-- `_is_command_allowed` (lines 73-76): exact membership in the allow-set. -/
def is_command_allowed (cfg : PyATSHandlerConfig) (command : String) : Bool :=
  cfg.allowed_commands_set.contains command

/-- The connected branch of the per-device loop (lines 235-340): parse with
`raw_data=True`, fall back to `execute` for raw text, classify the four
caught exception kinds, and build the `PyATSCommandResult` whose
`parsed_output` is cleared whenever `cmd_error_str` is set (line 337). -/
def runConnectedCommand (beh : DeviceBehavior) (name normCmd : String) :
    PyATSCommandResult :=
  match beh.parseOutcome with
  | .parsedOk parsed rawFromParse =>
    match rawFromParse with
    | some r =>
      { device_hostname := name, command := normCmd,
        raw_output := some r, parsed_output := some parsed, error := none }
    | none =>
      match beh.executeOutcome with
      | .ok s =>
        { device_hostname := name, command := normCmd,
          raw_output := some s, parsed_output := some parsed, error := none }
      | .error e =>
        { device_hostname := name, command := normCmd,
          raw_output := some "Failed to retrieve raw output after generic error.",
          parsed_output := none,
          error := some ("Unexpected error during command processing: " ++ e) }
  | .schemaEmpty msg =>
    let raw := match beh.executeOutcome with
      | .ok s => s
      | .error e => "Failed to retrieve raw output: " ++ e
    { device_hostname := name, command := normCmd,
      raw_output := some raw, parsed_output := none,
      error := some ("Parsed output was empty or did not match schema: " ++ msg) }
  | .attrError msg =>
    let raw := match beh.executeOutcome with
      | .ok s => s
      | .error e => "Failed to retrieve raw output: " ++ e
    { device_hostname := name, command := normCmd,
      raw_output := some raw, parsed_output := none,
      error := some ("Parsing failed (OS: " ++ beh.os ++ ", type: " ++ beh.dtype
        ++ ". Possibly missing parser or device state issue): " ++ msg) }
  | .genieError msg output =>
    { device_hostname := name, command := normCmd,
      raw_output := some (output.getD "Failed to retrieve raw output after GenieCommandError."),
      parsed_output := none,
      error := some ("Command execution or parsing error: " ++ msg) }
  | .genericError msg =>
    { device_hostname := name, command := normCmd,
      raw_output := some "Failed to retrieve raw output after generic error.",
      parsed_output := none,
      error := some ("Unexpected error during command processing: " ++ msg) }

/-- The connection-failure branch (lines 355-390).  `dnsState` models the
Python local variable `dns_result`, which `'dns_result' in locals()`
(line 380) observes across loop iterations of the SAME call: the state is
threaded through the device loop and updated only when a DNS probe runs.
Returns the device's `PyATSCommandResult`, the connectivity tests appended
for this device, and the updated `dns_result` state. -/
def connectionFailureStep (cfg : PyATSHandlerConfig) (beh : DeviceBehavior)
    (name normCmd connErr : String) (dnsState : Option ConnectivityTestResult) :
    PyATSCommandResult × List ConnectivityTestResult × Option ConnectivityTestResult :=
  let base := "Connection error: " ++ connErr
  if cfg.enable_connectivity_tests then
    let target_for_ping := beh.connIp.getD name
    let ping_result : ConnectivityTestResult :=
      { test_type := .ping, target := target_for_ping, success := beh.pingSuccess }
    let (tests, dnsState1) :=
      if isIpLike target_for_ping then
        ([ping_result], dnsState)
      else
        let dns_result : ConnectivityTestResult :=
          { test_type := .dns_resolution, target := name, success := beh.dnsSuccess }
        ([ping_result, dns_result], some dns_result)
    let msg1 := base ++ ". Connectivity tests run. Ping success: "
      ++ pyBoolRepr ping_result.success ++ "."
    let msg2 := match dnsState1 with
      | some d => msg1 ++ " DNS success: " ++ pyBoolRepr d.success ++ "."
      | none => msg1
    ({ device_hostname := name, command := normCmd, error := some msg2 },
      tests, dnsState1)
  else
    ({ device_hostname := name, command := normCmd, error := some base },
      [], dnsState)

/-- One iteration of the device loop (lines 212-392): testbed lookup, the
connect-if-needed attempt, then either the connected command branch or the
connection-failure branch. -/
def processDevice (cfg : PyATSHandlerConfig) (env : String → Option DeviceBehavior)
    (normCmd : String) (dnsState : Option ConnectivityTestResult) (name : String) :
    PyATSCommandResult × List ConnectivityTestResult × Option ConnectivityTestResult :=
  match env name with
  | none =>
    ({ device_hostname := name, command := normCmd,
       error := some ("Device \x27" ++ name ++ "\x27 not found in testbed.") },
      [], dnsState)
  | some beh =>
    if beh.alreadyConnected then
      (runConnectedCommand beh name normCmd, [], dnsState)
    else
      match beh.connectOutcome with
      | .ok _ => (runConnectedCommand beh name normCmd, [], dnsState)
      | .error e => connectionFailureStep cfg beh name normCmd e dnsState

/-- `PyATSHandler.execute_command_on_devices` (lines 165-394).  `env` models
`self.testbed.devices` together with the device session provider and the
ping/DNS probe outcomes.  The missing-testbed branch (lines 183-193) reports
the ORIGINAL command text; the allow-set branch (lines 195-210) reports the
normalized text; otherwise the device loop runs, threading the `dns_result`
local through `processDevice`.  `deviceLoopStep` is one iteration of the
loop's accumulation: append the device's result and connectivity tests,
carry the `dns_result` state. -/
def deviceLoopStep (cfg : PyATSHandlerConfig) (env : String → Option DeviceBehavior)
    (normCmd : String)
    (acc : List PyATSCommandResult × List ConnectivityTestResult × Option ConnectivityTestResult)
    (name : String) :
    List PyATSCommandResult × List ConnectivityTestResult × Option ConnectivityTestResult :=
  let step := processDevice cfg env normCmd acc.2.2 name
  (acc.1 ++ [step.1], acc.2.1 ++ step.2.1, step.2.2)

/-- Entry point of the executor (`pyats_handler.py` lines 165-394): the
missing-testbed branch, the allow-set gate, then the device loop folded with
`deviceLoopStep` starting from empty accumulators and no `dns_result`. -/
def execute_command_on_devices (cfg : PyATSHandlerConfig)
    (env : String → Option DeviceBehavior)
    (device_names : List String) (command_to_execute : String) :
    List PyATSCommandResult × List ConnectivityTestResult :=
  if !cfg.testbedLoaded then
    (device_names.map (fun n =>
      { device_hostname := n, command := command_to_execute,
        error := some "PyATSHandler misconfiguration: Testbed not loaded." }), [])
  else
    let normalized_command := normalizeCommand command_to_execute
    if !(is_command_allowed cfg normalized_command) then
      (device_names.map (fun n =>
        { device_hostname := n, command := normalized_command,
          error := some ("Command not allowed: \x27" ++ normalized_command ++ "\x27") }), [])
    else
      let final := device_names.foldl (deviceLoopStep cfg env normalized_command)
        ([], [], none)
      (final.1, final.2.1)

/-- `PyATSCommandRequest` (`data_models.py` lines 48-52).  `devices` is
`Optional[List[str]]` defaulting to `[]`; `None` and `[]` are both falsy at
the use sites, so the empty list models both. -/
structure PyATSCommandRequest where
  command : String
  devices : List String := []
deriving DecidableEq, Repr

/-- `LLMDataRequestAction` (`data_models.py` lines 54-63). -/
structure LLMDataRequestAction where
  thought : Option String := none
  pyats_commands : List PyATSCommandRequest := []
  ask_user_clarification : Option String := none
deriving DecidableEq, Repr

/-- `LLMAnalysisResult` (`data_models.py` lines 80-90).  The optional
`confidence_score` float and `raw_reasoning_text` are not modelled: no
manager code path or claim inspects them. -/
structure LLMAnalysisResult where
  overall_assessment : String
  key_findings : List String := []
  potential_root_causes : List String := []
  suggested_next_steps : List String := []
deriving DecidableEq, Repr

/-- `TargetScope` (`data_models.py` lines 20-24). -/
structure TargetScope where
  device_hostnames : List String := []
  market_or_region : Option String := none
deriving DecidableEq, Repr

/-- `AlarmDetails` (`data_models.py` lines 12-18); the free-form
`additional_info` dict only feeds prompt text and is not modelled. -/
structure AlarmDetails where
  source : Option String := none
  severity : Option String := none
  affected_component : Option String := none
  description : String
deriving DecidableEq, Repr

/-- `TroubleshootingReport` (`data_models.py` lines 94-105).  The
`original_request` snapshot (alarm or user-query payload, opaque to every
claim) is not modelled; the remaining fields follow the source. -/
structure TroubleshootingReport where
  request_type : String
  target_scope : TargetScope
  investigation_summary : Option String
  devices_investigated : List String
  connectivity_test_results : List ConnectivityTestResult
  pyats_command_results : List PyATSCommandResult
  llm_analysis : Option LLMAnalysisResult
deriving DecidableEq, Repr

/-- `InterimChatResponse` (`data_models.py` lines 110-112). -/
structure InterimChatResponse where
  assistant_message : String
deriving DecidableEq, Repr

/-- The structured-output oracle (`llm_handler.get_structured_response`) as a
behaviour record: the outcome of the data-gathering call, of the
post-collection analysis call, and of the alarm flow's simple-assessment
call.  `.error` models the call raising. -/
structure Oracle where
  dataRequest : Except String LLMDataRequestAction
  analysis : Except String LLMAnalysisResult
  simpleAssessment : Except String LLMAnalysisResult
deriving DecidableEq, Repr

/-- State of a constructed `TroubleshootingManager` (`manager.py` lines
32-78): the pyATS handler and report builder may each be `None` after an
initialization failure. -/
structure ManagerConfig where
  pyatsHandlerAvailable : Bool
  reportBuilderAvailable : Bool
  handlerCfg : PyATSHandlerConfig

/-- An exception escaping a manager flow to the caller. -/
inductive PyFlowError where
  | unboundLocal (name : String)
deriving DecidableEq, Repr

/-- `ReportBuilder.build_report` (`report_builder.py` lines 159-201): wraps
the arguments into a `TroubleshootingReport`, defaulting a falsy summary. -/
def build_report (request_type : String) (target_scope : TargetScope)
    (investigation_summary : String) (devices_investigated : List String)
    (pyats_results : List PyATSCommandResult)
    (connectivity_tests : List ConnectivityTestResult)
    (llm_analysis : Option LLMAnalysisResult) : TroubleshootingReport :=
  { request_type := request_type,
    target_scope := target_scope,
    investigation_summary :=
      some (if investigation_summary = "" then "Investigation summary not provided."
            else investigation_summary),
    devices_investigated := devices_investigated,
    connectivity_test_results := connectivity_tests,
    pyats_command_results := pyats_results,
    llm_analysis := llm_analysis }

/-- `manager.py` lines 173-179 (and identically 423-427): gather the device
lists of every `CommandAsk` naming this command, defaulting empty lists to
the run's `TargetScope`, drop falsy names, deduplicate, sort. -/
def resolveCommandDevices (req : LLMDataRequestAction) (scope : TargetScope)
    (command_str : String) : List String :=
  let gathered := req.pyats_commands.foldl
    (fun acc c =>
      if c.command = command_str then
        acc ++ (if c.devices ≠ [] then c.devices else scope.device_hostnames)
      else acc) []
  pySorted (pySetToList (gathered.filter (fun d => d ≠ "")))

/-- `manager.py` line 169 (and 421): `list(set(c.command for c in ... if
c.command))`. -/
def uniqueCommandsFromLLM (req : LLMDataRequestAction) : List String :=
  pySetToList ((req.pyats_commands.map (fun c => c.command)).filter (fun c => c ≠ ""))

/-- The command-execution loop shared by both flows (`manager.py` lines
169-192 and 421-438): one `execute_command_on_devices` call per distinct
command, skipping commands with no resolved devices, accumulating command
results and connectivity tests. -/
def runRequestedCommands (hcfg : PyATSHandlerConfig)
    (env : String → Option DeviceBehavior)
    (req : LLMDataRequestAction) (scope : TargetScope) :
    List PyATSCommandResult × List ConnectivityTestResult :=
  (uniqueCommandsFromLLM req).foldl
    (fun acc command_str =>
      let devs := resolveCommandDevices req scope command_str
      if devs = [] then acc
      else
        let r := execute_command_on_devices hcfg env devs command_str
        (acc.1 ++ r.1, acc.2 ++ r.2))
    ([], [])

/-- `manager.py` line 273-278: the degraded analysis synthesized when the
post-collection oracle analysis call raises. -/
def degradedAnalysisFallback : LLMAnalysisResult :=
  { overall_assessment := "LLM analysis failed. Review collected data manually.",
    key_findings := ["LLM analysis could not be performed due to an error."],
    potential_root_causes := ["Error in LLM communication or response processing."],
    suggested_next_steps := ["Check logs for LLMHandler errors.",
      "Review raw pyATS data if collected."] }

/-- `manager.py` lines 297-302: the degraded analysis synthesized when the
simple-assessment oracle call raises. -/
def simpleAssessmentFallback : LLMAnalysisResult :=
  { overall_assessment :=
      "Initial LLM assessment failed. Alarm details may be insufficient or LLM error.",
    key_findings := ["No device data was collected.",
      "LLM could not provide an initial assessment."],
    potential_root_causes := ["Insufficient information from alarm.",
      "LLM communication error."],
    suggested_next_steps := ["Manually review alarm details.",
      "Consider direct device investigation."] }

/-- `manager.py` lines 305-313: the analysis synthesized when only a
clarification was requested. -/
def clarificationPendingAnalysis (q : String) : LLMAnalysisResult :=
  let clarification_text := "LLM requested clarification: " ++ q
  { overall_assessment := "Further action pending user clarification. " ++ clarification_text,
    key_findings := [clarification_text],
    potential_root_causes :=
      ["Information insufficient for automated diagnosis without clarification."],
    suggested_next_steps := ["Provide the requested clarification to proceed."] }

/-- `manager.py` lines 314-320: the analysis synthesized when the action
request yielded neither commands nor a clarification.  (Reachable, despite
the source comment, only with commands-but-no-handler or no-resolved-device
runs, since an unbound `llm_data_request` crashes at line 279 first.) -/
def noActionAnalysis : LLMAnalysisResult :=
  { overall_assessment :=
      "Initial LLM interaction for data gathering failed or yielded no actions. Cannot proceed with data-driven analysis.",
    key_findings := ["Failed to determine data gathering steps via LLM."],
    potential_root_causes :=
      ["Problem with LLM prompt/response or initial alarm data interpretation."],
    suggested_next_steps := ["Review manager logs for errors in the first LLM call.",
      "Check alarm details for clarity."] }

/-- Final report assembly of `process_alarm` (`manager.py` lines 323-350):
when the report builder failed to initialize, a bare report is constructed
at line 328; otherwise `build_report` is called at line 339.  Both compute
`devices_investigated` as `list(set(hostnames))`. -/
def alarmReport (mgr : ManagerConfig) (target_scope : TargetScope)
    (summary : String) (collected : List PyATSCommandResult)
    (connAgg : List ConnectivityTestResult)
    (analysis : Option LLMAnalysisResult) : TroubleshootingReport :=
  if !mgr.reportBuilderAvailable then
    { request_type := "alarm",
      target_scope := target_scope,
      investigation_summary := some (summary ++ " ReportBuilder failed to initialize."),
      devices_investigated := pySetToList (collected.map (fun r => r.device_hostname)),
      connectivity_test_results := connAgg,
      pyats_command_results := collected,
      llm_analysis := analysis }
  else
    build_report "alarm" target_scope summary
      (pySetToList (collected.map (fun r => r.device_hostname)))
      collected connAgg analysis

/-- `TroubleshootingManager.process_alarm` (`manager.py` lines 80-350).

Modelling notes, faithful to the source text:
* The first oracle call (line 129) raising is caught at line 226, leaving
  the Python local `llm_data_request` unbound; control then reaches line 279
  (`elif not llm_data_request ...`) with `collected_pyats_results` empty and
  raises `UnboundLocalError`, which no handler catches.  This path is the
  `.error` result.
* Lines 219-224 (`elif not self.pyats_handler:` / `else:`) are mis-indented
  in the source (an `elif` directly following the `try` suite); the pairing
  with the `if` at line 144, evident from the branch texts, is embedded.
* Python truthiness: `ask_user_clarification` is falsy when `None` or
  empty, `pyats_commands` when the list is empty. -/
def process_alarm (mgr : ManagerConfig) (env : String → Option DeviceBehavior)
    (oracle : Oracle) (alarm : AlarmDetails) (target_scope : TargetScope) :
    Except PyFlowError TroubleshootingReport :=
  let summary0 := "Initial investigation for alarm: " ++ alarm.description
  match oracle.dataRequest with
  | .error _ => .error (.unboundLocal "llm_data_request")
  | .ok req =>
    let summary1 := summary0 ++
      (if pyStrTruthy req.ask_user_clarification then
        " LLM requested clarification: " ++ req.ask_user_clarification.getD ""
      else "")
    let step2 :=
      if mgr.pyatsHandlerAvailable && !req.pyats_commands.isEmpty then
        let r := runRequestedCommands mgr.handlerCfg env req target_scope
        let s :=
          if !r.1.isEmpty then
            summary1 ++ " Executed " ++ toString (uniqueCommandsFromLLM req).length
              ++ " unique command(s) across relevant devices."
          else
            summary1 ++ " No pyATS commands were executed based on LLM\x27s request or device availability."
        (r.1, r.2, s)
      else if !mgr.pyatsHandlerAvailable then
        ([], [], summary1 ++ " PyATSHandler not available, commands not executed.")
      else
        ([], [], summary1 ++ " LLM did not request specific pyATS commands.")
    let collected := step2.1
    let connAgg := step2.2.1
    let summary2 := step2.2.2
    let step3 :=
      if !collected.isEmpty then
        match oracle.analysis with
        | .ok a =>
          (summary2 ++ " LLM analysis completed. Assessment: "
            ++ pyTake a.overall_assessment 50 ++ "...", some a)
        | .error e =>
          (summary2 ++ " Error during LLM analysis: " ++ e ++ ".",
            some degradedAnalysisFallback)
      else if req.pyats_commands.isEmpty && !pyStrTruthy req.ask_user_clarification then
        match oracle.simpleAssessment with
        | .ok a =>
          (summary2 ++ " LLM provided a general assessment based on alarm details only.",
            some a)
        | .error e =>
          (summary2 ++ " Error during simple LLM assessment: " ++ e ++ ".",
            some simpleAssessmentFallback)
      else
        if pyStrTruthy req.ask_user_clarification then
          let q := req.ask_user_clarification.getD ""
          (summary2 ++ " " ++ ("LLM requested clarification: " ++ q),
            some (clarificationPendingAnalysis q))
        else
          (summary2, some noActionAnalysis)
    .ok (alarmReport mgr target_scope step3.1 collected connAgg step3.2)

/-- The two result shapes of `process_user_query`. -/
inductive UserQueryOutcome where
  | report (r : TroubleshootingReport)
  | interim (m : InterimChatResponse)
deriving DecidableEq, Repr

/-- Steps 4-5 of `process_user_query` (`manager.py` lines 450-539), after
command execution: the optional analysis call, then the priority-ordered
response branching. -/
def userQueryConclude (mgr : ManagerConfig) (oracle : Oracle)
    (target_scope : TargetScope) (act : LLMDataRequestAction) (summary : String)
    (collected : List PyATSCommandResult)
    (connAgg : List ConnectivityTestResult) : Except String UserQueryOutcome :=
  let analysisStep : Except String (Option LLMAnalysisResult × String) :=
    if !collected.isEmpty then
      match oracle.analysis with
      | .ok a =>
        .ok (some a, summary ++ " LLM analysis of collected data completed.")
      | .error e => .error e
    else .ok ((none : Option LLMAnalysisResult), summary)
  match analysisStep with
  | .error e =>
    .ok (.interim { assistant_message :=
      "I encountered an error trying to analyze the collected data: " ++ e })
  | .ok (llm_analysis_result, summary1) =>
    if pyStrTruthy act.ask_user_clarification && collected.isEmpty then
      .ok (.interim { assistant_message := act.ask_user_clarification.getD "" })
    else if llm_analysis_result.isSome then
      if !mgr.reportBuilderAvailable then
        .ok (.interim { assistant_message :=
          "I have processed your query and have some findings, but I\x27m unable to generate a formatted report at the moment." })
      else
        .ok (.report (build_report "user_query" target_scope summary1
          (pySetToList (collected.map (fun r => r.device_hostname)))
          collected connAgg llm_analysis_result))
    else if act.pyats_commands.isEmpty && !pyStrTruthy act.ask_user_clarification then
      .ok (.interim { assistant_message :=
        (pyStrOrDefault act.thought
          "I\x27ve processed your query. Is there anything else I can help with?") })
    else
      .ok (.interim { assistant_message :=
        "I\x27ve processed your request. If commands were run, I\x27ll analyze the data. If not, I might need more information or your query was general." })

/-- `TroubleshootingManager.process_user_query` (`manager.py` lines 352-539).

Modelling notes: the `try:` at line 402 has no matching handler in the
source (a syntax slip); its suite is embedded as straight-line code, so a
failure of the action-request oracle call propagates (the `.error` result).
Chat history and file uploads only shape prompt text and are omitted. -/
def process_user_query (mgr : ManagerConfig) (env : String → Option DeviceBehavior)
    (oracle : Oracle) (query : String) (target_scope : TargetScope) :
    Except String UserQueryOutcome :=
  match oracle.dataRequest with
  | .error e => .error e
  | .ok act =>
    let summary1 := "Investigation based on user query: " ++ pyTake query 50 ++ "..."
    if !act.pyats_commands.isEmpty && mgr.pyatsHandlerAvailable then
      let r := runRequestedCommands mgr.handlerCfg env act target_scope
      let summary2 := summary1 ++ " Executed "
        ++ toString (uniqueCommandsFromLLM act).length ++ " command(s)."
      userQueryConclude mgr oracle target_scope act summary2 r.1 r.2
    else if !act.pyats_commands.isEmpty && !mgr.pyatsHandlerAvailable then
      .ok (.interim { assistant_message :=
        "I identified some commands to run, but I\x27m currently unable to connect to network devices. Please check my configuration." })
    else
      userQueryConclude mgr oracle target_scope act summary1 [] []

/-! ## Helper lemmas -/

/-- The invariant of claim C7, as a predicate on one result record. -/
def errorClearsParsed (r : PyATSCommandResult) : Prop :=
  r.error = none ∨ r.parsed_output = none

theorem runConnectedCommand_errorClearsParsed (beh : DeviceBehavior)
    (name normCmd : String) :
    errorClearsParsed (runConnectedCommand beh name normCmd) := by
  unfold errorClearsParsed runConnectedCommand
  cases hp : beh.parseOutcome with
  | parsedOk p r =>
    cases r with
    | some rr => simp
    | none => cases he : beh.executeOutcome <;> simp
  | schemaEmpty m => simp
  | attrError m => simp
  | genieError m o => simp
  | genericError m => simp

theorem connectionFailureStep_parsed_none (cfg : PyATSHandlerConfig)
    (beh : DeviceBehavior) (name normCmd connErr : String)
    (dnsState : Option ConnectivityTestResult) :
    (connectionFailureStep cfg beh name normCmd connErr dnsState).1.parsed_output = none := by
  unfold connectionFailureStep
  repeat' split
  all_goals rfl

theorem processDevice_errorClearsParsed (cfg : PyATSHandlerConfig)
    (env : String → Option DeviceBehavior) (normCmd : String)
    (dnsState : Option ConnectivityTestResult) (name : String) :
    errorClearsParsed (processDevice cfg env normCmd dnsState name).1 := by
  unfold errorClearsParsed processDevice
  cases he : env name with
  | none => right; rfl
  | some beh =>
    cases hb : beh.alreadyConnected with
    | true =>
      simpa [errorClearsParsed, hb] using
        runConnectedCommand_errorClearsParsed beh name normCmd
    | false =>
      cases hc : beh.connectOutcome with
      | ok u =>
        simpa [errorClearsParsed, hb, hc] using
          runConnectedCommand_errorClearsParsed beh name normCmd
      | error e =>
        right
        simpa [hb, hc] using
          connectionFailureStep_parsed_none cfg beh name normCmd e dnsState

theorem processDevice_conn_tests_disabled (cfg : PyATSHandlerConfig)
    (env : String → Option DeviceBehavior) (normCmd : String)
    (dnsState : Option ConnectivityTestResult) (name : String)
    (h : cfg.enable_connectivity_tests = false) :
    (processDevice cfg env normCmd dnsState name).2.1 = [] := by
  unfold processDevice connectionFailureStep
  cases he : env name with
  | none => rfl
  | some beh =>
    cases hb : beh.alreadyConnected with
    | true => simp [hb]
    | false =>
      cases hc : beh.connectOutcome with
      | ok u => simp [hb, hc]
      | error e => simp [hb, hc, h]

theorem foldl_conn_tests_disabled (cfg : PyATSHandlerConfig)
    (env : String → Option DeviceBehavior) (normCmd : String)
    (h : cfg.enable_connectivity_tests = false) :
    ∀ (names : List String)
      (acc : List PyATSCommandResult × List ConnectivityTestResult × Option ConnectivityTestResult),
      (names.foldl (deviceLoopStep cfg env normCmd) acc).2.1 = acc.2.1 := by
  intro names
  induction names with
  | nil => intro acc; rfl
  | cons x xs ih =>
    intro acc
    rw [List.foldl_cons, ih]
    unfold deviceLoopStep
    simp [processDevice_conn_tests_disabled cfg env normCmd acc.2.2 x h]

theorem mem_foldl_results (cfg : PyATSHandlerConfig)
    (env : String → Option DeviceBehavior) (normCmd : String)
    (P : PyATSCommandResult → Prop)
    (hP : ∀ d n, P (processDevice cfg env normCmd d n).1) :
    ∀ (names : List String)
      (acc : List PyATSCommandResult × List ConnectivityTestResult × Option ConnectivityTestResult),
      (∀ r ∈ acc.1, P r) →
      ∀ r ∈ (names.foldl (deviceLoopStep cfg env normCmd) acc).1, P r := by
  intro names
  induction names with
  | nil => intro acc hacc r hr; exact hacc r hr
  | cons x xs ih =>
    intro acc hacc r hr
    rw [List.foldl_cons] at hr
    refine ih _ ?_ r hr
    intro s hs
    unfold deviceLoopStep at hs
    rcases List.mem_append.mp hs with h1 | h1
    · exact hacc s h1
    · rcases List.mem_singleton.mp h1 with rfl
      exact hP acc.2.2 x

theorem execute_singleton (cfg : PyATSHandlerConfig)
    (env : String → Option DeviceBehavior) (name cmd : String)
    (htb : cfg.testbedLoaded = true)
    (hal : is_command_allowed cfg (normalizeCommand cmd) = true) :
    execute_command_on_devices cfg env [name] cmd
      = ([(processDevice cfg env (normalizeCommand cmd) none name).1],
         (processDevice cfg env (normalizeCommand cmd) none name).2.1) := by
  unfold execute_command_on_devices
  simp [htb, hal, deviceLoopStep]

theorem pySetToList_nodup (xs : List String) : (pySetToList xs).Nodup :=
  List.nodup_dedup xs

theorem mem_pySetToList {a : String} {xs : List String} :
    a ∈ pySetToList xs ↔ a ∈ xs :=
  List.mem_dedup

theorem alarmReport_devices (mgr : ManagerConfig) (ts : TargetScope) (s : String)
    (c : List PyATSCommandResult) (ca : List ConnectivityTestResult)
    (an : Option LLMAnalysisResult) :
    (alarmReport mgr ts s c ca an).devices_investigated
      = pySetToList ((alarmReport mgr ts s c ca an).pyats_command_results.map
          (fun x => x.device_hostname)) := by
  unfold alarmReport build_report
  split <;> rfl

theorem process_alarm_ok_devices (mgr : ManagerConfig)
    (env : String → Option DeviceBehavior) (oracle : Oracle)
    (alarm : AlarmDetails) (scope : TargetScope) (r : TroubleshootingReport)
    (h : process_alarm mgr env oracle alarm scope = .ok r) :
    r.devices_investigated
      = pySetToList (r.pyats_command_results.map (fun x => x.device_hostname)) := by
  unfold process_alarm at h
  rcases hd : oracle.dataRequest with e | req
  · rw [hd] at h; cases h
  · rw [hd] at h
    have h2 := Except.ok.inj h
    rw [← h2]
    exact alarmReport_devices _ _ _ _ _ _

theorem userQueryConclude_report_devices (mgr : ManagerConfig) (oracle : Oracle)
    (ts : TargetScope) (act : LLMDataRequestAction) (s : String)
    (collected : List PyATSCommandResult) (conn : List ConnectivityTestResult)
    (r : TroubleshootingReport)
    (h : userQueryConclude mgr oracle ts act s collected conn = .ok (.report r)) :
    r.devices_investigated
      = pySetToList (r.pyats_command_results.map (fun x => x.device_hostname)) := by
  unfold userQueryConclude at h
  repeat' split at h
  all_goals simp_all
  all_goals (rw [← h]; rfl)

theorem process_user_query_report_devices (mgr : ManagerConfig)
    (env : String → Option DeviceBehavior) (oracle : Oracle) (q : String)
    (ts : TargetScope) (r : TroubleshootingReport)
    (h : process_user_query mgr env oracle q ts = .ok (.report r)) :
    r.devices_investigated
      = pySetToList (r.pyats_command_results.map (fun x => x.device_hostname)) := by
  unfold process_user_query at h
  rcases hd : oracle.dataRequest with e | act
  · rw [hd] at h; cases h
  · rw [hd] at h
    dsimp only at h
    by_cases hA : (!act.pyats_commands.isEmpty && mgr.pyatsHandlerAvailable) = true
    · rw [if_pos hA] at h
      exact userQueryConclude_report_devices _ _ _ _ _ _ _ _ h
    · rw [if_neg hA] at h
      by_cases hB : (!act.pyats_commands.isEmpty && !mgr.pyatsHandlerAvailable) = true
      · rw [if_pos hB] at h
        simp at h
      · rw [if_neg hB] at h
        exact userQueryConclude_report_devices _ _ _ _ _ _ _ _ h

/-! ## Concrete fixtures -/

/-- A device that is already connected and parses the command cleanly. -/
def behConnectedOk : DeviceBehavior :=
  { os := "iosxe", dtype := "router", connIp := none, alreadyConnected := true,
    connectOutcome := .ok (), parseOutcome := .parsedOk "parsed-data" (some "raw-text"),
    executeOutcome := .ok "raw-text", pingSuccess := true, dnsSuccess := true }

/-- A device whose connect raises; no testbed ip, so the ping target is its
name (not address-like) and a DNS probe runs. -/
def behConnRefusedName : DeviceBehavior :=
  { os := "iosxe", dtype := "router", connIp := none, alreadyConnected := false,
    connectOutcome := .error "refused", parseOutcome := .parsedOk "parsed-data" (some "raw-text"),
    executeOutcome := .ok "raw-text", pingSuccess := false, dnsSuccess := true }

/-- A device whose connect raises; its testbed ip is address-like, so no DNS
probe runs for it. -/
def behConnRefusedIp : DeviceBehavior :=
  { os := "iosxe", dtype := "router", connIp := some "10.0.0.2", alreadyConnected := false,
    connectOutcome := .error "refused", parseOutcome := .parsedOk "parsed-data" (some "raw-text"),
    executeOutcome := .ok "raw-text", pingSuccess := false, dnsSuccess := true }

/-- Handler with a loaded testbed, a two-command allow-set, diagnostics on. -/
def cfgEnabled : PyATSHandlerConfig :=
  { testbedLoaded := true,
    allowed_commands_set := mkAllowedCommandsSet ["show version", "show clock"],
    enable_connectivity_tests := true }

/-- Same handler with connectivity diagnostics disabled. -/
def cfgDisabled : PyATSHandlerConfig :=
  { testbedLoaded := true,
    allowed_commands_set := mkAllowedCommandsSet ["show version", "show clock"],
    enable_connectivity_tests := false }

/-- Handler whose testbed failed to load. -/
def cfgNoTestbed : PyATSHandlerConfig :=
  { testbedLoaded := false,
    allowed_commands_set := mkAllowedCommandsSet ["show version"],
    enable_connectivity_tests := true }

/-- Testbed with the two unreachable devices R1 (name target) and R2
(address target). -/
def envTwoRouters : String → Option DeviceBehavior := fun n =>
  if n = "R1" then some behConnRefusedName
  else if n = "R2" then some behConnRefusedIp
  else none

/-- Testbed with two healthy devices named "a" and "b". -/
def envAB : String → Option DeviceBehavior := fun n =>
  if n = "a" || n = "b" then some behConnectedOk else none

/-- Manager with both collaborators available, diagnostics off. -/
def mgrStd : ManagerConfig :=
  { pyatsHandlerAvailable := true, reportBuilderAvailable := true,
    handlerCfg := cfgDisabled }

/-- Oracle requesting `show version` on "b" and `show clock` on "a". -/
def oracleTwoCommands : Oracle :=
  { dataRequest := .ok
      { thought := none,
        pyats_commands := [{ command := "show version", devices := ["b"] },
          { command := "show clock", devices := ["a"] }],
        ask_user_clarification := none },
    analysis := .ok { overall_assessment := "ok" },
    simpleAssessment := .error "unused" }

/-- Oracle whose calls all raise. -/
def oracleFirstCallFails : Oracle :=
  { dataRequest := .error "LLM transport error",
    analysis := .error "LLM transport error",
    simpleAssessment := .error "LLM transport error" }

/-- Oracle answering only with a clarification question. -/
def oracleClarificationOnly : Oracle :=
  { dataRequest := .ok
      { thought := none, pyats_commands := [],
        ask_user_clarification := some "Which building?" },
    analysis := .error "unused", simpleAssessment := .error "unused" }

def alarmSample : AlarmDetails := { description := "Interface Gig0/0/1 is down." }

def scopeEmpty : TargetScope := {}

/-! ## Claim theorems -/

/-- C1: with a loaded testbed, a command whose whitespace-normalized form is
not in the allow-set makes `execute_command_on_devices` return one
CommandResult with a non-null "not allowed" error per requested device and
an empty ReachabilityResult list; the output is independent of the device
world, so no device lookup, connection, or execution is attempted. -/
theorem execute_command_not_allowed_rejects_all
    (cfg : PyATSHandlerConfig) (env env2 : String → Option DeviceBehavior)
    (device_names : List String) (command_to_execute : String)
    (htb : cfg.testbedLoaded = true)
    (hna : is_command_allowed cfg (normalizeCommand command_to_execute) = false) :
    execute_command_on_devices cfg env device_names command_to_execute
      = (device_names.map (fun n =>
          { device_hostname := n, command := normalizeCommand command_to_execute,
            raw_output := none, parsed_output := none,
            error := some ("Command not allowed: \x27"
              ++ normalizeCommand command_to_execute ++ "\x27") }), [])
    ∧ execute_command_on_devices cfg env device_names command_to_execute
        = execute_command_on_devices cfg env2 device_names command_to_execute := by
  unfold execute_command_on_devices
  simp [htb, hna]

/-- Witness for C1: the unnormalized command `" show   ip  route "` is not
in the allow-set, so both devices receive a "not allowed" error result and
zero connectivity tests, with no device interaction. -/
theorem execute_command_not_allowed_rejects_all_witness :
    execute_command_on_devices cfgEnabled (fun _ => none) ["R1", "R2"] " show   ip  route "
      = ([{ device_hostname := "R1", command := "show ip route", raw_output := none,
            parsed_output := none, error := some "Command not allowed: \x27show ip route\x27" },
          { device_hostname := "R2", command := "show ip route", raw_output := none,
            parsed_output := none, error := some "Command not allowed: \x27show ip route\x27" }],
         []) :=
  ((execute_command_not_allowed_rejects_all cfgEnabled (fun _ => none) (fun _ => none)
    ["R1", "R2"] " show   ip  route " rfl (by decide)).1).trans (by decide)

/-- C9: `execute_command_on_devices` is a function of the handler state and
the device behaviour only — two invocations with the same command and device
list against identical connect/parse/execute/probe behaviour produce
field-for-field equal results (the modelled records carry no wall-clock
fields, matching the source records). -/
theorem execute_command_deterministic
    (cfg : PyATSHandlerConfig) (env1 env2 : String → Option DeviceBehavior)
    (names : List String) (cmd : String)
    (h : ∀ n, env1 n = env2 n) :
    execute_command_on_devices cfg env1 names cmd
      = execute_command_on_devices cfg env2 names cmd := by
  have he : env1 = env2 := funext h
  rw [he]

/-- Witness for C9 at a concrete run against two syntactically distinct but
pointwise-equal device worlds. -/
theorem execute_command_deterministic_witness :
    execute_command_on_devices cfgEnabled envTwoRouters ["R1"] "show version"
      = execute_command_on_devices cfgEnabled (fun n => envTwoRouters n) ["R1"] "show version" :=
  execute_command_deterministic cfgEnabled envTwoRouters (fun n => envTwoRouters n)
    ["R1"] "show version" (fun _ => rfl)

/-- C10: with no testbed loaded, every requested device receives one
CommandResult whose `command` field carries the original un-normalized text
and whose error reports the testbed misconfiguration, with an empty
ReachabilityResult list; the output is independent of the allow-set (the
allow-set check is never performed) and of the device world. -/
theorem no_testbed_reports_misconfiguration
    (cfg : PyATSHandlerConfig) (env env2 : String → Option DeviceBehavior)
    (names : List String) (cmd : String) (S : List String)
    (htb : cfg.testbedLoaded = false) :
    execute_command_on_devices cfg env names cmd
      = (names.map (fun n =>
          { device_hostname := n, command := cmd, raw_output := none,
            parsed_output := none,
            error := some "PyATSHandler misconfiguration: Testbed not loaded." }), [])
    ∧ execute_command_on_devices { cfg with allowed_commands_set := S } env2 names cmd
        = execute_command_on_devices cfg env names cmd := by
  unfold execute_command_on_devices
  simp [htb]

/-- Witness for C10: a command that is also outside the allow-set is
reported as a testbed failure (not an authorization failure), un-normalized,
regardless of the allow-set contents. -/
theorem no_testbed_reports_misconfiguration_witness :
    execute_command_on_devices cfgNoTestbed envAB ["R1"] " reload  now "
      = ([{ device_hostname := "R1", command := " reload  now ", raw_output := none,
            parsed_output := none,
            error := some "PyATSHandler misconfiguration: Testbed not loaded." }], [])
    ∧ execute_command_on_devices { cfgNoTestbed with allowed_commands_set := [] }
          envTwoRouters ["R1"] " reload  now "
        = execute_command_on_devices cfgNoTestbed envAB ["R1"] " reload  now " := by
  have h := no_testbed_reports_misconfiguration cfgNoTestbed envAB envTwoRouters
    ["R1"] " reload  now " [] rfl
  exact ⟨h.1.trans (by decide), h.2⟩

/-- C4 (code defect): the Python local `dns_result` survives across loop
iterations, and the `'dns_result' in locals()` check at line 380 therefore
appends a STALE probe flag to a later device's error text.  Here R1 fails to
connect and runs a DNS probe; R2 (address-like target, hence no DNS probe of
its own) fails next, and its CommandResult error text ends with R1's
" DNS success: True." — while the same R2 run in isolation produces an error
text with no DNS mention.  The ReachabilityResult list confirms no DNS probe
was attributed to R2. -/
theorem dns_state_leaks_across_devices :
    (execute_command_on_devices cfgEnabled envTwoRouters ["R1", "R2"] "show version").1.map
        (fun r => r.error)
      = [some "Connection error: refused. Connectivity tests run. Ping success: False. DNS success: True.",
         some "Connection error: refused. Connectivity tests run. Ping success: False. DNS success: True."]
    ∧ (execute_command_on_devices cfgEnabled envTwoRouters ["R1", "R2"] "show version").2
      = [{ test_type := .ping, target := "R1", success := false },
         { test_type := .dns_resolution, target := "R1", success := true },
         { test_type := .ping, target := "10.0.0.2", success := false }]
    ∧ (execute_command_on_devices cfgEnabled envTwoRouters ["R2"] "show version").1.map
        (fun r => r.error)
      = [some "Connection error: refused. Connectivity tests run. Ping success: False."] := by
  refine ⟨?_, ?_, ?_⟩ <;> decide

/-- C2 (code defect): when the first oracle call of the alarm flow raises,
the handler at `manager.py` line 226 catches it, but line 279 then reads the
unbound local `llm_data_request` and the resulting `UnboundLocalError`
propagates to the caller — `process_alarm` does NOT return a Report on this
path, contradicting the claim that every oracle failure is converted into a
degraded AnalysisResult inside a returned Report. -/
theorem process_alarm_first_oracle_failure_raises :
    process_alarm mgrStd envAB oracleFirstCallFails alarmSample scopeEmpty
      = .error (.unboundLocal "llm_data_request") := by
  rfl

/-- Counterexample to C3: a concrete alarm run whose Report has
`devices_investigated = ["b", "a"]` while
`sorted(unique(cr.device_hostname for cr in pyats_command_results))` is
`["a", "b"]` — the code deduplicates via `list(set(...))` but never sorts,
so the claimed sorted order fails. -/
theorem devices_investigated_unsorted_cex :
    (process_alarm mgrStd envAB oracleTwoCommands alarmSample scopeEmpty).toOption.map
        (fun r => (r.devices_investigated,
          pySorted (pySetToList (r.pyats_command_results.map (fun x => x.device_hostname)))))
      = some (["b", "a"], ["a", "b"])
    ∧ (["b", "a"] : List String) ≠ ["a", "b"] := by
  exact ⟨by decide, by decide⟩

/-- C3 (amended): in every Report produced by either flow,
`devices_investigated` contains each device hostname occurring in
`pyats_command_results` exactly once and nothing else — no duplicates, no
absent name, every present name — but in arbitrary set-iteration order, not
necessarily sorted. -/
theorem devices_investigated_dedup_exact :
    (∀ (mgr : ManagerConfig) (env : String → Option DeviceBehavior) (oracle : Oracle)
        (alarm : AlarmDetails) (scope : TargetScope) (r : TroubleshootingReport),
        process_alarm mgr env oracle alarm scope = .ok r →
        r.devices_investigated.Nodup ∧
          ∀ d, d ∈ r.devices_investigated ↔
            d ∈ r.pyats_command_results.map (fun x => x.device_hostname))
    ∧ (∀ (mgr : ManagerConfig) (env : String → Option DeviceBehavior) (oracle : Oracle)
        (q : String) (scope : TargetScope) (r : TroubleshootingReport),
        process_user_query mgr env oracle q scope = .ok (.report r) →
        r.devices_investigated.Nodup ∧
          ∀ d, d ∈ r.devices_investigated ↔
            d ∈ r.pyats_command_results.map (fun x => x.device_hostname)) := by
  constructor
  · intro mgr env oracle alarm scope r h
    rw [process_alarm_ok_devices mgr env oracle alarm scope r h]
    exact ⟨pySetToList_nodup _, fun d => mem_pySetToList⟩
  · intro mgr env oracle q scope r h
    rw [process_user_query_report_devices mgr env oracle q scope r h]
    exact ⟨pySetToList_nodup _, fun d => mem_pySetToList⟩

/-- The report of the concrete alarm run used to witness the amended C3. -/
def cexAlarmReport : TroubleshootingReport :=
  match process_alarm mgrStd envAB oracleTwoCommands alarmSample scopeEmpty with
  | .ok r => r
  | .error _ =>
    { request_type := "alarm", target_scope := {}, investigation_summary := none,
      devices_investigated := [], connectivity_test_results := [],
      pyats_command_results := [], llm_analysis := none }

/-- Witness for the amended C3 at a concrete alarm run. -/
theorem devices_investigated_dedup_exact_witness :
    cexAlarmReport.devices_investigated.Nodup
    ∧ ("b" ∈ cexAlarmReport.devices_investigated ↔
        "b" ∈ cexAlarmReport.pyats_command_results.map (fun x => x.device_hostname)) := by
  have h := devices_investigated_dedup_exact.1 mgrStd envAB oracleTwoCommands
    alarmSample scopeEmpty cexAlarmReport (by rfl)
  exact ⟨h.1, h.2 "b"⟩

/-- C5: (a) with connectivity diagnostics disabled the ReachabilityResult
list of a whole run is empty regardless of outcomes; (b) with diagnostics
enabled, a device whose connect raises gets an error CommandResult and at
least one ReachabilityResult; (c) after a successful (or already-open)
connection a device run attaches no ReachabilityResult, whatever the command
outcome. -/
theorem reachability_only_on_connection_failure
    (cfg : PyATSHandlerConfig) (env : String → Option DeviceBehavior)
    (names : List String) (cmd normCmd e : String)
    (dnsState : Option ConnectivityTestResult) (name : String) (beh : DeviceBehavior) :
    (cfg.enable_connectivity_tests = false →
      (execute_command_on_devices cfg env names cmd).2 = [])
    ∧ (cfg.enable_connectivity_tests = true → env name = some beh →
        beh.alreadyConnected = false → beh.connectOutcome = .error e →
        (processDevice cfg env normCmd dnsState name).1.error ≠ none
        ∧ (processDevice cfg env normCmd dnsState name).2.1 ≠ [])
    ∧ (env name = some beh →
        beh.alreadyConnected = true ∨ beh.connectOutcome = .ok () →
        (processDevice cfg env normCmd dnsState name).2.1 = []) := by
  refine ⟨?_, ?_, ?_⟩
  · intro h
    unfold execute_command_on_devices
    split
    · rfl
    · dsimp only
      split
      · rfl
      · dsimp only
        exact foldl_conn_tests_disabled cfg env _ h names ([], [], none)
  · intro hen henv hac hco
    unfold processDevice
    rw [henv]
    simp only [hac, Bool.false_eq_true, if_false, hco]
    unfold connectionFailureStep
    simp only [hen, if_true]
    cases hip : isIpLike (beh.connIp.getD name) <;>
      cases dnsState <;> simp [hip]
  · intro henv hd
    unfold processDevice
    rw [henv]
    rcases hd with h1 | h1
    · simp [h1]
    · cases hb : beh.alreadyConnected <;> simp [hb, h1]

/-- Witness for C5: (a) a disabled-diagnostics run over an unreachable
device yields no ReachabilityResults; (b) an enabled run on unreachable R1
yields an error result and a nonempty probe list; (c) the healthy device "a"
yields no probes. -/
theorem reachability_only_on_connection_failure_witness :
    (execute_command_on_devices cfgDisabled envTwoRouters ["R1"] "show version").2 = []
    ∧ ((processDevice cfgEnabled envTwoRouters "show version" none "R1").1.error ≠ none
        ∧ (processDevice cfgEnabled envTwoRouters "show version" none "R1").2.1 ≠ [])
    ∧ (processDevice cfgEnabled envAB "show version" none "a").2.1 = [] := by
  refine ⟨?_, ?_, ?_⟩
  · exact (reachability_only_on_connection_failure cfgDisabled envTwoRouters ["R1"]
      "show version" "show version" "refused" none "R1" behConnRefusedName).1 rfl
  · exact (reachability_only_on_connection_failure cfgEnabled envTwoRouters []
      "show version" "show version" "refused" none "R1" behConnRefusedName).2.1
      rfl (by decide) rfl rfl
  · exact (reachability_only_on_connection_failure cfgEnabled envAB []
      "show version" "show version" "refused" none "a" behConnectedOk).2.2
      (by decide) (Or.inl rfl)

/-- C6: a device whose session provider raises on connect, with diagnostics
enabled and an effective ping target that does not look like a raw address,
produces exactly two ReachabilityResults — one ping probe and one
name-resolution probe — and its CommandResult error text names both probes'
success flags. -/
theorem connect_failure_two_probes
    (cfg : PyATSHandlerConfig) (env : String → Option DeviceBehavior)
    (beh : DeviceBehavior) (cmd e : String)
    (htb : cfg.testbedLoaded = true)
    (hen : cfg.enable_connectivity_tests = true)
    (hal : is_command_allowed cfg (normalizeCommand cmd) = true)
    (henv : env "R2" = some beh)
    (hac : beh.alreadyConnected = false)
    (hco : beh.connectOutcome = .error e)
    (hip : isIpLike (beh.connIp.getD "R2") = false) :
    execute_command_on_devices cfg env ["R2"] cmd
      = ([{ device_hostname := "R2", command := normalizeCommand cmd,
            raw_output := none, parsed_output := none,
            error := some ("Connection error: " ++ e
              ++ ". Connectivity tests run. Ping success: " ++ pyBoolRepr beh.pingSuccess
              ++ "." ++ " DNS success: " ++ pyBoolRepr beh.dnsSuccess ++ ".") }],
         [{ test_type := .ping, target := beh.connIp.getD "R2", success := beh.pingSuccess },
          { test_type := .dns_resolution, target := "R2", success := beh.dnsSuccess }]) := by
  rw [execute_singleton cfg env "R2" cmd htb hal]
  unfold processDevice
  rw [henv]
  simp only [hac, Bool.false_eq_true, if_false, hco]
  unfold connectionFailureStep
  simp [hen, hip]

/-- Witness for C6 at device "R2" with no testbed ip (the ping target is the
non-address-like name "R2"). -/
theorem connect_failure_two_probes_witness :
    execute_command_on_devices cfgEnabled
        (fun n => if n = "R2" then some behConnRefusedName else none) ["R2"] "show version"
      = ([{ device_hostname := "R2", command := "show version",
            raw_output := none, parsed_output := none,
            error := some "Connection error: refused. Connectivity tests run. Ping success: False. DNS success: True." }],
         [{ test_type := .ping, target := "R2", success := false },
          { test_type := .dns_resolution, target := "R2", success := true }]) := by
  have h := connect_failure_two_probes cfgEnabled
    (fun n => if n = "R2" then some behConnRefusedName else none)
    behConnRefusedName "show version" "refused" rfl rfl (by decide) (by decide)
    rfl rfl (by decide)
  exact h.trans (by decide)

/-- C7: every CommandResult produced by `execute_command_on_devices`
satisfies the invariant that `error` and `parsed_output` are never both
non-null — whenever `error` is set, `parsed_output` is null (raw output may
still be captured). -/
theorem error_excludes_parsed_output
    (cfg : PyATSHandlerConfig) (env : String → Option DeviceBehavior)
    (names : List String) (cmd : String) :
    ∀ r ∈ (execute_command_on_devices cfg env names cmd).1,
      r.error ≠ none → r.parsed_output = none := by
  intro r hr herr
  unfold execute_command_on_devices at hr
  split at hr
  · simp only [List.mem_map] at hr
    obtain ⟨n, hn, rfl⟩ := hr
    rfl
  · dsimp only at hr
    split at hr
    · simp only [List.mem_map] at hr
      obtain ⟨n, hn, rfl⟩ := hr
      rfl
    · dsimp only at hr
      have hinv := mem_foldl_results cfg env _ errorClearsParsed
        (fun d n => processDevice_errorClearsParsed cfg env _ d n)
        names ([], [], none) (fun x hx => absurd hx (List.not_mem_nil x)) r hr
      rcases hinv with h | h
      · exact absurd h herr
      · exact h

/-- Witness for C7: a concrete errored result of a concrete run carries no
parsed output. -/
theorem error_excludes_parsed_output_witness :
    ({ device_hostname := "R1", command := "show version", raw_output := none,
       parsed_output := none,
       error := some "Connection error: refused. Connectivity tests run. Ping success: False. DNS success: True." }
      : PyATSCommandResult)
        ∈ (execute_command_on_devices cfgEnabled envTwoRouters ["R1"] "show version").1
    ∧ ({ device_hostname := "R1", command := "show version", raw_output := none,
         parsed_output := none,
         error := some "Connection error: refused. Connectivity tests run. Ping success: False. DNS success: True." }
        : PyATSCommandResult).parsed_output = none := by
  refine ⟨by decide, ?_⟩
  exact error_excludes_parsed_output cfgEnabled envTwoRouters ["R1"] "show version"
    _ (by decide) (by decide)

/-- C8: when the oracle's action request carries a (non-empty) clarification
question and no commands, `process_user_query` returns an InterimChatResponse
whose message is exactly the question, for EVERY device world — so the
command executor is never consulted during the run. -/
theorem user_query_clarification_interim
    (mgr : ManagerConfig) (oracle : Oracle) (q query : String) (ts : TargetScope)
    (act : LLMDataRequestAction)
    (hd : oracle.dataRequest = .ok act)
    (hq : act.ask_user_clarification = some q)
    (hne : q ≠ "")
    (hcmds : act.pyats_commands = []) :
    ∀ env, process_user_query mgr env oracle query ts
      = .ok (.interim { assistant_message := q }) := by
  intro env
  unfold process_user_query
  rw [hd]
  dsimp only
  unfold userQueryConclude
  simp [hcmds, pyStrTruthy, hq, hne]

/-- Witness for C8: the spec's Scenario B, message exactly "Which building?". -/
theorem user_query_clarification_interim_witness :
    process_user_query mgrStd (fun _ => none) oracleClarificationOnly
        "My internet is slow." scopeEmpty
      = .ok (.interim { assistant_message := "Which building?" }) :=
  user_query_clarification_interim mgrStd oracleClarificationOnly "Which building?"
    "My internet is slow." scopeEmpty
    { thought := none, pyats_commands := [],
      ask_user_clarification := some "Which building?" }
    rfl rfl (by decide) rfl (fun _ => none)

end Marvis
